import Mathlib

/-!
Verification of the runner plugin's deployment orchestration core
(`RunnerServiceImpl`, `DockerService`, `ContainerMonitoringService`,
`ErrorHandlingService`) against its natural-language specification.

The TypeScript sources are shallowly embedded: each service method that the
claims depend on becomes a pure Lean function over an explicit state type.
External effects (the Docker daemon, the filesystem, the network, timers)
are parameters of the functions: a probe outcome, a port-availability
oracle, a filesystem oracle.  Timestamps (`new Date().toISOString()`) are
modelled as abstract `Nat` clock values supplied by the caller.
-/

/-! ## String helpers

`includes` models JavaScript's `String.prototype.includes` (substring
test); `toLowerStr` models `String.prototype.toLowerCase` for the ASCII
patterns used by the classifier. -/

/-- Does `pat` occur as a contiguous sublist of `l`? -/
def listContainsSub : List Char → List Char → Bool
  | l@(_ :: t), pat => pat.isPrefixOf l || listContainsSub t pat
  | [], pat => pat.isEmpty

/-- JS `s.includes(pat)`. -/
def includes (s pat : String) : Bool :=
  listContainsSub s.data pat.data

/-- JS `s.toLowerCase()` (ASCII, which covers every pattern the classifier
compares against). -/
def toLowerStr (s : String) : String :=
  ⟨s.data.map Char.toLower⟩

/-! ## ErrorHandlingService

Embeds `plugins/runner-backend/src/services/ErrorHandlingService/ErrorHandlingService.ts`. -/

/-- `ErrorContext` from ErrorHandlingService.ts (the `metadata` bag is not
consulted by any classification rule and is omitted). -/
structure ErrorContext where
  operation : String
  instanceId : Option String
  containerId : Option String
  componentRef : Option String
  timestamp : Nat
deriving Repr, DecidableEq

inductive Severity
  | low
  | medium
  | high
  | critical
deriving Repr, DecidableEq

/-- `RunnerError` from ErrorHandlingService.ts (`originalError` holds the raw
JS `Error` object and is omitted: `message` already carries its text). -/
structure RunnerError where
  code : String
  message : String
  userMessage : String
  context : ErrorContext
  severity : Severity
  recoverable : Bool
  retryable : Bool
deriving Repr, DecidableEq

/-- `ErrorHandlingService.isDockerError`. -/
def isDockerError (message : String) (context : ErrorContext) : Bool :=
  includes (toLowerStr message) "docker" ||
  includes (toLowerStr message) "container" ||
  includes (toLowerStr message) "image" ||
  includes (toLowerStr message) "daemon" ||
  includes (toLowerStr context.operation) "docker" ||
  includes (toLowerStr context.operation) "build" ||
  includes (toLowerStr context.operation) "run"

/-- `ErrorHandlingService.isGitError`. -/
def isGitError (message : String) (context : ErrorContext) : Bool :=
  includes message "git" ||
  includes message "repository" ||
  includes message "clone" ||
  includes context.operation "git" ||
  includes context.operation "clone"

/-- `ErrorHandlingService.isConfigError`. -/
def isConfigError (message : String) (context : ErrorContext) : Bool :=
  includes message "config" ||
  includes message "annotation" ||
  includes message "yaml" ||
  includes context.operation "config"

/-- `ErrorHandlingService.createDockerError`.  The first source branch
(`docker: command not found`) calls `handleError`, which re-enters
`createDockerError` with the same message, which re-enters the same branch:
the source diverges (unbounded recursion) on such messages, modelled as
`none`.  Every other branch returns a literal classification. -/
def createDockerError (errorMessage : String) (context : ErrorContext) :
    Option RunnerError :=
  if includes errorMessage "docker: command not found" then
    none
  else if includes errorMessage "Cannot connect to the Docker daemon" then
    some { code := "DOCKER_DAEMON_NOT_RUNNING"
           message := errorMessage
           userMessage := "Docker daemon is not running. Please start Docker and try again."
           context := context
           severity := .high
           recoverable := true
           retryable := true }
  else if includes errorMessage "port is already allocated" ||
          includes errorMessage "already in use" then
    some { code := "PORT_ALREADY_IN_USE"
           message := errorMessage
           userMessage := "The required port is already in use. Please stop other services using this port or choose a different port."
           context := context
           severity := .medium
           recoverable := true
           retryable := false }
  else if includes errorMessage "No such file or directory" &&
          includes errorMessage "Dockerfile" then
    some { code := "DOCKERFILE_NOT_FOUND"
           message := errorMessage
           userMessage := "Dockerfile not found in the repository. Please ensure the Dockerfile exists at the specified path."
           context := context
           severity := .high
           recoverable := false
           retryable := false }
  else if includes errorMessage "build failed" || includes errorMessage "RUN" then
    some { code := "DOCKER_BUILD_FAILED"
           message := errorMessage
           userMessage := "Docker build failed. Please check your Dockerfile and build configuration."
           context := context
           severity := .high
           recoverable := false
           retryable := true }
  else if includes errorMessage "timeout" || includes errorMessage "timed out" then
    some { code := "DOCKER_OPERATION_TIMEOUT"
           message := errorMessage
           userMessage := "Docker operation timed out. This might be due to slow network or large image size."
           context := context
           severity := .medium
           recoverable := true
           retryable := true }
  else
    some { code := "DOCKER_OPERATION_FAILED"
           message := errorMessage
           userMessage := "Docker operation failed. Please check the logs for more details."
           context := context
           severity := .medium
           recoverable := true
           retryable := true }

/-- `ErrorHandlingService.createGitError`. -/
def createGitError (errorMessage : String) (context : ErrorContext) : RunnerError :=
  if includes errorMessage "git: command not found" then
    { code := "GIT_NOT_INSTALLED"
      message := errorMessage
      userMessage := "Git is not installed or not available in PATH. Please install Git."
      context := context
      severity := .critical
      recoverable := false
      retryable := false }
  else if includes errorMessage "Repository not found" ||
          includes errorMessage "fatal: repository" then
    { code := "REPOSITORY_NOT_FOUND"
      message := errorMessage
      userMessage := "Repository not found or access denied. Please check the repository URL and permissions."
      context := context
      severity := .high
      recoverable := false
      retryable := false }
  else if includes errorMessage "Authentication failed" ||
          includes errorMessage "Permission denied" then
    { code := "GIT_AUTHENTICATION_FAILED"
      message := errorMessage
      userMessage := "Git authentication failed. Please check your credentials and repository permissions."
      context := context
      severity := .high
      recoverable := false
      retryable := false }
  else
    { code := "GIT_OPERATION_FAILED"
      message := errorMessage
      userMessage := "Git operation failed. Please check the repository URL and try again."
      context := context
      severity := .medium
      recoverable := true
      retryable := true }

/-- `ErrorHandlingService.createConfigError`. -/
def createConfigError (errorMessage : String) (context : ErrorContext) : RunnerError :=
  if includes errorMessage "config.yml" || includes errorMessage "configuration" then
    { code := "INVALID_CONFIGURATION"
      message := errorMessage
      userMessage := "Invalid runner configuration. Please check your .runner/config.yml file."
      context := context
      severity := .high
      recoverable := false
      retryable := false }
  else if includes errorMessage "annotation" ||
          includes errorMessage "runner.backstage.io" then
    { code := "MISSING_RUNNER_ANNOTATION"
      message := errorMessage
      userMessage := "Component is missing required runner annotations. Please add runner.backstage.io/enabled annotation."
      context := context
      severity := .medium
      recoverable := false
      retryable := false }
  else
    { code := "CONFIGURATION_ERROR"
      message := errorMessage
      userMessage := "Configuration error. Please check your component configuration."
      context := context
      severity := .medium
      recoverable := false
      retryable := false }

/-- `ErrorHandlingService.categorizeError`.  `none` only on the diverging
`docker: command not found` path inside `createDockerError`. -/
def categorizeError (errorMessage : String) (context : ErrorContext) :
    Option RunnerError :=
  if isDockerError errorMessage context then
    createDockerError errorMessage context
  else if isGitError errorMessage context then
    some (createGitError errorMessage context)
  else if isConfigError errorMessage context then
    some (createConfigError errorMessage context)
  else
    some { code := "UNKNOWN_ERROR"
           message := errorMessage
           userMessage := "An unexpected error occurred. Please try again or contact support."
           context := context
           severity := .medium
           recoverable := true
           retryable := true }

/-- `ErrorHandlingService.handleError`: categorize, log (pure model: logging
dropped), append to history.  The classification returned to the caller. -/
def handleError (errorMessage : String) (context : ErrorContext) :
    Option RunnerError :=
  categorizeError errorMessage context

/-- `ErrorHandlingService.addToHistory` with the service's
`maxHistorySize = 1000`: push, then evict the oldest entry if the cap is
exceeded. -/
def addToHistory (maxHistorySize : Nat) (errorHistory : List RunnerError)
    (e : RunnerError) : List RunnerError :=
  let pushed := errorHistory ++ [e]
  if maxHistorySize < pushed.length then pushed.tail else pushed

/-- The service's configured `maxHistorySize`. -/
def maxHistorySize : Nat := 1000

example :
    (handleError "Cannot connect to the Docker daemon"
      { operation := "test-operation", instanceId := some "i", containerId := none,
        componentRef := none, timestamp := 0 }).map RunnerError.code =
      some "DOCKER_DAEMON_NOT_RUNNING" := by decide

/-! ## JS `Map` model

`mapGet`/`mapSet` model `Map.prototype.get` / `Map.prototype.set`:
`set` replaces in place (preserving insertion order) or appends. -/

def mapGet {α : Type} : List (String × α) → String → Option α
  | [], _ => none
  | (k', v) :: rest, k => if k' == k then some v else mapGet rest k

def mapSet {α : Type} : List (String × α) → String → α → List (String × α)
  | [], k, v => [(k, v)]
  | (k', v') :: rest, k, v =>
      if k' == k then (k, v) :: rest else (k', v') :: mapSet rest k v

theorem mapGet_mapSet_self {α : Type} (m : List (String × α)) (k : String) (v : α) :
    mapGet (mapSet m k v) k = some v := by
  induction m with
  | nil => simp [mapGet, mapSet]
  | cons hd tl ih =>
    obtain ⟨k', v'⟩ := hd
    by_cases hk : k' == k
    · simp [mapGet, mapSet, hk]
    · simp [mapGet, mapSet, hk, ih]

theorem mapGet_mapSet_ne {α : Type} (m : List (String × α)) (k k' : String) (v : α)
    (h : k ≠ k') : mapGet (mapSet m k v) k' = mapGet m k' := by
  induction m with
  | nil => simp [mapGet, mapSet, h]
  | cons hd tl ih =>
    obtain ⟨k0, v0⟩ := hd
    by_cases hk : k0 == k
    · have hk' : k0 = k := by simpa using hk
      subst hk'
      simp [mapGet, mapSet, h]
    · simp [mapGet, mapSet, hk, ih]

/-! ## DockerService

Embeds `plugins/runner-backend/src/services/DockerService/DockerService.ts`.
The child-process outcomes (`docker build` / `docker run` exit) and the host
environment (filesystem, ports) are parameters.  `path.join` is modelled as
slash concatenation, which is adequate here: the claims only use that the
joined path is a function of the `(repoPath, dockerfile)` pair. -/

instance {ε α : Type} [DecidableEq ε] [DecidableEq α] : DecidableEq (Except ε α) := fun a b =>
  match a, b with
  | .error x, .error y =>
      if h : x = y then isTrue (by rw [h]) else isFalse (by intro hc; cases hc; exact h rfl)
  | .error _, .ok _ => isFalse (by intro hc; cases hc)
  | .ok _, .error _ => isFalse (by intro hc; cases hc)
  | .ok x, .ok y =>
      if h : x = y then isTrue (by rw [h]) else isFalse (by intro hc; cases hc; exact h rfl)

/-- `path.join(repoPath, config.dockerfile)`. -/
def joinPath (a b : String) : String := a ++ "/" ++ b

/-- Outcome of the spawned `docker build` child process. -/
inductive BuildResult
  | exitOk
  | exitFail (errorOutput output : String)
  | timedOut
deriving Repr, DecidableEq

/-- The mutable state of `DockerService` relevant to building:
`buildCache` maps `cacheKey` to a built image name. -/
structure DockerState where
  buildCache : List (String × String)
deriving Repr, DecidableEq

/-- Result of one `buildImage` call: the returned/thrown value, the service
state afterwards, and whether the underlying `docker build` was spawned. -/
structure BuildOutcome where
  result : Except String String
  stateAfter : DockerState
  buildInvoked : Bool
deriving Repr, DecidableEq

/-- `DockerService.buildImage` (lines 57-149).  Order of operations is the
source's: Dockerfile existence check first, then the cache lookup, then the
spawned build.  `fs p = true` means `fs.access(p)` succeeds.
`buildTimeoutMs` is `this.config.buildTimeout`. -/
def buildImage (st : DockerState) (fs : String → Bool) (repoPath dockerfile : String)
    (instanceId : String) (build : BuildResult) (buildTimeoutMs : Nat) : BuildOutcome :=
  let imageName := "runner-" ++ instanceId
  let dockerfilePath := joinPath repoPath dockerfile
  if !(fs dockerfilePath) then
    { result := .error ("Dockerfile not found at: " ++ dockerfile)
      stateAfter := st
      buildInvoked := false }
  else
    let cacheKey := repoPath ++ "-" ++ dockerfile
    match mapGet st.buildCache cacheKey with
    | some cachedImage =>
        { result := .ok cachedImage, stateAfter := st, buildInvoked := false }
    | none =>
        match build with
        | .exitOk =>
            { result := .ok imageName
              stateAfter := { buildCache := mapSet st.buildCache cacheKey imageName }
              buildInvoked := true }
        | .exitFail errorOutput output =>
            { result := .error
                ("Docker build failed: " ++ (if errorOutput == "" then output else errorOutput))
              stateAfter := st
              buildInvoked := true }
        | .timedOut =>
            { result := .error
                ("Docker build timed out after " ++ toString (buildTimeoutMs / 1000) ++ " seconds")
              stateAfter := st
              buildInvoked := true }

/-- `DockerUtils.checkPortsAvailable`: each requested port paired with its
availability, `portFree` standing for the `net.createServer` probe. -/
def checkPortsAvailable (portFree : Nat → Bool) (ports : List Nat) : List (Nat × Bool) :=
  ports.map fun port => (port, portFree port)

/-- `DockerService.checkPortAvailability` (lines 366-374). -/
def checkPortAvailability (portFree : Nat → Bool) (ports : List Nat) : Except String Unit :=
  let portResults := checkPortsAvailable portFree ports
  let unavailablePorts := portResults.filter fun r => !r.2
  if unavailablePorts.length ≠ 0 then
    .error ("Ports already in use: " ++
      String.intercalate ", " (unavailablePorts.map fun r => toString r.1))
  else
    .ok ()

/-- Outcome of the spawned `docker run` child process: the close code with
collected stdout (container id) and stderr, or the run timeout firing. -/
inductive RunResult
  | closed (code : Nat) (containerId errorOutput : String)
  | timedOut
deriving Repr, DecidableEq

/-- Result of one `runContainer` call: returned/thrown value and whether the
container-creating `docker run` command was spawned at all. -/
structure RunOutcome where
  result : Except String String
  dockerRunInvoked : Bool
deriving Repr, DecidableEq

/-- `DockerService.runContainer` (lines 151-225): the port pre-check runs
before the `docker run` spawn; any occupied port aborts the call. -/
def runContainer (portFree : Nat → Bool) (ports : List Nat) (_imageName _instanceId : String)
    (run : RunResult) (runTimeoutMs : Nat) : RunOutcome :=
  match checkPortAvailability portFree ports with
  | .error msg => { result := .error msg, dockerRunInvoked := false }
  | .ok _ =>
      match run with
      | .closed code containerId errorOutput =>
          if code == 0 && containerId != "" then
            { result := .ok containerId, dockerRunInvoked := true }
          else
            { result := .error ("Failed to start container: " ++ errorOutput)
              dockerRunInvoked := true }
      | .timedOut =>
          { result := .error
              ("Container start timed out after " ++ toString (runTimeoutMs / 1000) ++ " seconds")
            dockerRunInvoked := true }

/-! ## ContainerMonitoringService

Embeds `plugins/runner-backend/src/services/ContainerMonitoringService/ContainerMonitoringService.ts`.
Each periodic tick becomes one function application; the Docker probe and the
raw stats sample are parameters.  The stats-string parsing helpers
(`parseCpuUsage` etc.) live between the raw sample and the stored
`ContainerMetrics`; the model takes the already-parsed sample, since every
claim concerns the history buffers, not the parsing. -/

inductive HealthStatus
  | healthy
  | unhealthy
  | starting
  | unknown
deriving Repr, DecidableEq

structure HealthCheck where
  timestamp : Nat
  success : Bool
  responseTime : Option Nat
  error : Option String
deriving Repr, DecidableEq

structure ContainerHealth where
  containerId : String
  status : HealthStatus
  lastCheck : Nat
  checks : List HealthCheck
  uptime : Nat
  restartCount : Nat
deriving Repr, DecidableEq

structure ContainerMetrics where
  containerId : String
  timestamp : Nat
  cpuUsage : Nat
  memoryUsage : Nat
  memoryLimit : Nat
  memoryPercentage : Nat
  networkRxBytes : Nat
  networkTxBytes : Nat
  ioReadBytes : Nat
  ioWriteBytes : Nat
deriving Repr, DecidableEq

structure MonitoringConfig where
  healthCheckInterval : Nat
  metricsCollectionInterval : Nat
  maxHealthCheckHistory : Nat
  maxMetricsHistory : Nat
  alertCpuUsage : Nat
  alertMemoryUsage : Nat
  alertResponseTime : Nat
deriving Repr, DecidableEq

/-- The constructor defaults of `ContainerMonitoringService`. -/
def defaultMonitoringConfig : MonitoringConfig where
  healthCheckInterval := 30000
  metricsCollectionInterval := 10000
  maxHealthCheckHistory := 100
  maxMetricsHistory := 288
  alertCpuUsage := 80
  alertMemoryUsage := 85
  alertResponseTime := 5000

/-- `ContainerMonitoringService.performHealthCheck` (lines 192-242), acting
on one container's `ContainerHealth` record.  `probe` is the result of
`await dockerService.isContainerRunning(...)`: `.ok b` when it resolves,
`.error msg` when it rejects (the source's catch path).  `now` models
`Date.now()` at check construction and `responseTime` the measured elapsed
time.  NOTE (faithful to the source): only the resolve path trims the
history to `maxHealthCheckHistory`; the catch path appends without
trimming. -/
def performHealthCheck (cfg : MonitoringConfig) (instanceStartedAt : Nat)
    (health : ContainerHealth) (probe : Except String Bool) (now responseTime : Nat) :
    ContainerHealth :=
  match probe with
  | .ok isRunning =>
      let check : HealthCheck :=
        { timestamp := now
          success := isRunning
          responseTime := some responseTime
          error := if isRunning then none else some "Container is not running" }
      let status' := if isRunning then HealthStatus.healthy else HealthStatus.unhealthy
      let uptime' := if isRunning then (now - instanceStartedAt) / 1000 else health.uptime
      let pushed := health.checks ++ [check]
      let checks' := if cfg.maxHealthCheckHistory < pushed.length then pushed.tail else pushed
      { health with status := status', uptime := uptime', checks := checks', lastCheck := now }
  | .error msg =>
      let check : HealthCheck :=
        { timestamp := now, success := false, responseTime := none, error := some msg }
      { health with
          checks := health.checks ++ [check]
          status := HealthStatus.unhealthy
          lastCheck := now }

/-- `ContainerMonitoringService.collectMetrics` (lines 247-290) restricted to
one container's history list.  `sample = none` models
`getContainerStats` returning `null` (transient failure: nothing stored). -/
def collectMetrics (cfg : MonitoringConfig) (history : List ContainerMetrics)
    (sample : Option ContainerMetrics) : List ContainerMetrics :=
  match sample with
  | none => history
  | some m =>
      let pushed := history ++ [m]
      if cfg.maxMetricsHistory < pushed.length then pushed.tail else pushed

theorem collectMetrics_length_le (cfg : MonitoringConfig) (history : List ContainerMetrics)
    (sample : Option ContainerMetrics) (h : history.length ≤ cfg.maxMetricsHistory) :
    (collectMetrics cfg history sample).length ≤ cfg.maxMetricsHistory := by
  unfold collectMetrics
  cases sample with
  | none => exact h
  | some m =>
    simp only
    split
    · rename_i hlt
      simp only [List.length_tail, List.length_append, List.length_singleton]
      omega
    · rename_i hle
      omega

theorem addToHistory_length_le (cap : Nat) (history : List RunnerError) (e : RunnerError)
    (h : history.length ≤ cap) :
    (addToHistory cap history e).length ≤ cap := by
  unfold addToHistory
  simp only
  split
  · rename_i hlt
    simp only [List.length_tail, List.length_append, List.length_singleton]
    omega
  · rename_i hle
    omega

/-! ## RunnerServiceImpl: deployment progress

Embeds `RunnerServiceImpl.createInitialDeploymentProgress` and
`RunnerServiceImpl.updateDeploymentProgress` (the RunnerService.ts variant
with deployment progress, src/unnamed/part_010 lines 40-142). -/

inductive StepStatus
  | pending
  | in_progress
  | completed
  | failed
deriving Repr, DecidableEq

/-- One `deploymentProgress` step; `stepType` is the source's `type` field
(a Lean keyword). -/
structure DeploymentStep where
  stepType : String
  status : StepStatus
  title : String
  description : String
  startedAt : Option Nat
  completedAt : Option Nat
  progress : Option Nat
  error : Option String
deriving Repr, DecidableEq

structure DeploymentProgress where
  currentStep : String
  steps : List DeploymentStep
  overallProgress : Nat
  isComplete : Bool
  hasError : Bool
  startedAt : Nat
  completedAt : Option Nat
deriving Repr, DecidableEq

/-- The `options` bag of `updateDeploymentProgress`. -/
structure UpdateOptions where
  error : Option String
  progress : Option Nat
  description : Option String
deriving Repr, DecidableEq

def noOpts : UpdateOptions := { error := none, progress := none, description := none }

/-- JS truthiness assignment `if (v) target = v` for an optional string
(an empty string is falsy and leaves the target unchanged). -/
def jsSetString (old : Option String) : Option String → Option String
  | some v => if v == "" then old else some v
  | none => old

def mkStep (t title desc : String) : DeploymentStep :=
  { stepType := t, status := .pending, title := title, description := desc,
    startedAt := none, completedAt := none, progress := none, error := none }

/-- `RunnerServiceImpl.createInitialDeploymentProgress` (lines 40-82). -/
def createInitialDeploymentProgress (now : Nat) : DeploymentProgress :=
  { currentStep := "downloading_repository"
    steps :=
      [mkStep "downloading_repository" "Downloading Repository"
         "Fetching source code from GitHub repository",
       mkStep "extracting_files" "Extracting Files"
         "Extracting repository archive to temporary directory",
       mkStep "building_image" "Building Docker Image"
         "Building container image from Dockerfile",
       mkStep "starting_container" "Starting Container"
         "Creating and starting the Docker container",
       mkStep "monitoring_container" "Monitoring Container"
         "Setting up health checks and monitoring"]
    overallProgress := 0
    isComplete := false
    hasError := false
    startedAt := now
    completedAt := none }

/-- `Math.round((completedSteps / totalSteps) * 100)` on naturals
(round-half-up; exact whenever `total` divides 100, as with the 5 steps). -/
def roundPct (completed total : Nat) : Nat :=
  (completed * 200 + total) / (2 * total)

/-- `RunnerServiceImpl.updateDeploymentProgress` (lines 87-142).  The
source's `if (!instance.deploymentProgress)` re-initialisation is handled by
the callers in this model (`startComponent` always creates the progress
record first, so the branch is dead on every path modelled here). -/
def updateDeploymentProgress (progress : DeploymentProgress) (stepType : String)
    (status : StepStatus) (opts : UpdateOptions) (now : Nat) : DeploymentProgress :=
  match progress.steps.findIdx? (fun s => s.stepType == stepType) with
  | none => progress
  | some stepIndex =>
    match progress.steps.get? stepIndex with
    | none => progress
    | some step =>
      let step1 := { step with
        status := status
        error := jsSetString step.error opts.error
        progress := match opts.progress with
                    | some p => some p
                    | none => step.progress
        description := match opts.description with
                       | some d => if d == "" then step.description else d
                       | none => step.description }
      let step2 :=
        if status == .in_progress && step1.startedAt == none then
          { step1 with startedAt := some now }
        else if (status == .completed || status == .failed) && step1.completedAt == none then
          { step1 with completedAt := some now }
        else step1
      let steps' := progress.steps.set stepIndex step2
      let completedSteps := (steps'.filter (fun s => s.status == .completed)).length
      let totalSteps := steps'.length
      let currentStep' :=
        if status == .completed then
          match steps'.get? (stepIndex + 1) with
          | some nxt => nxt.stepType
          | none => progress.currentStep
        else if status == .in_progress then stepType
        else progress.currentStep
      let hasError' := steps'.any (fun s => s.status == .failed)
      let isComplete' := completedSteps == totalSteps || hasError'
      let completedAt' :=
        if isComplete' && progress.completedAt == none then some now
        else progress.completedAt
      { progress with
          steps := steps'
          overallProgress := roundPct completedSteps totalSteps
          currentStep := currentStep'
          hasError := hasError'
          isComplete := isComplete'
          completedAt := completedAt' }

/-- One recorded `updateDeploymentProgress` call without options:
step type, new status, clock value. -/
abbrev ProgressEvent := String × StepStatus × Nat

def applyProgressEvent (p : DeploymentProgress) (e : ProgressEvent) : DeploymentProgress :=
  updateDeploymentProgress p e.1 e.2.1 noOpts e.2.2

/-- The exact sequence of `updateDeploymentProgress` calls made by a
successful `startComponent` run (lines 174-205), including the
`extracting_files -> in_progress` update issued inside `cloneRepository`
(line 449) while `downloading_repository` is still in progress.  Clock
values are successive abstract instants. -/
def successEvents : List ProgressEvent :=
  [("downloading_repository", .in_progress, 1),
   ("extracting_files", .in_progress, 2),
   ("downloading_repository", .completed, 3),
   ("extracting_files", .completed, 4),
   ("building_image", .in_progress, 5),
   ("building_image", .completed, 6),
   ("starting_container", .in_progress, 7),
   ("starting_container", .completed, 8),
   ("monitoring_container", .in_progress, 9),
   ("monitoring_container", .completed, 10)]

/-- Every observable `deploymentProgress` state of a successful run, from
the freshly created record through each update. -/
def successStates : List DeploymentProgress :=
  successEvents.scanl applyProgressEvent (createInitialDeploymentProgress 0)

/-! ## RunnerServiceImpl: orchestrator state -/

inductive InstanceStatus
  | starting
  | running
  | stopping
  | stopped
  | error
deriving Repr, DecidableEq

/-- `RunnerInstance` from RunnerService types. -/
structure RunnerInstance where
  id : String
  componentRef : String
  status : InstanceStatus
  containerId : Option String
  ports : List Nat
  startedAt : Nat
  stoppedAt : Option Nat
  error : Option String
  deploymentProgress : Option DeploymentProgress
deriving Repr, DecidableEq

/-- The mutable fields of `RunnerServiceImpl`: the `instances` map and the
single-slot `currentInstance` reference. -/
structure OrchState where
  instances : List (String × RunnerInstance)
  currentInstance : Option String
deriving Repr, DecidableEq

def emptyOrch : OrchState := { instances := [], currentInstance := none }

/-- The guard of `startComponent` (lines 145-151): the call is rejected
exactly when `currentInstance` names an instance whose status is
`running`. -/
def startComponentBusy (s : OrchState) : Bool :=
  match s.currentInstance with
  | some cid =>
      match mapGet s.instances cid with
      | some current => current.status == .running
      | none => false
  | none => false

/-- The synchronous prologue of `startComponent` (lines 145-167): the busy
check, then creation of the `starting` instance record and acquisition of
the slot.  Returns the new state and `some message` when the call was
rejected (in which case the state is untouched). -/
def startComponentPrologue (s : OrchState) (instanceId componentRef : String) (now : Nat) :
    OrchState × Option String :=
  if startComponentBusy s then
    (s, some "Another component is already running. Stop it first.")
  else
    let inst : RunnerInstance :=
      { id := instanceId
        componentRef := componentRef
        status := .starting
        containerId := none
        ports := []
        startedAt := now
        stoppedAt := none
        error := none
        deploymentProgress := some (createInitialDeploymentProgress now) }
    ({ instances := mapSet s.instances instanceId inst
       currentInstance := some instanceId }, none)

/-- A sequence of `startComponent` prologues (each new call entering while
the previous pipelines are still pending or finished). -/
def startSeq : OrchState → List (String × String × Nat) → OrchState
  | s, [] => s
  | s, (id, cref, now) :: rest => startSeq (startComponentPrologue s id cref now).1 rest

/-- Instances currently holding the deployment slot's protected statuses. -/
def activeCount (s : OrchState) : Nat :=
  (s.instances.filter fun p =>
    p.2.status == InstanceStatus.starting || p.2.status == InstanceStatus.running).length

/-! ## Claim C4: build cache idempotence -/

/-- C4 (confirmed). For every `(sourcePath, dockerfile)` pair, after a first
successful `buildImage`, a second call with the identical pair and unchanged
`DockerService` state (no intervening cache-invalidating event: no
`cleanup()`, same filesystem) returns the same image reference and does not
spawn the underlying `docker build`, regardless of the second call's
instance id, build outcome or timeout. -/
theorem C4_buildImage_cache_idempotent
    (st : DockerState) (fs : String → Bool) (repoPath dockerfile id1 id2 : String)
    (b2 : BuildResult) (tmo1 tmo2 : Nat)
    (hfs : fs (joinPath repoPath dockerfile) = true)
    (hmiss : mapGet st.buildCache (repoPath ++ "-" ++ dockerfile) = none) :
    (buildImage st fs repoPath dockerfile id1 BuildResult.exitOk tmo1).result
        = Except.ok ("runner-" ++ id1) ∧
    (buildImage st fs repoPath dockerfile id1 BuildResult.exitOk tmo1).buildInvoked = true ∧
    (buildImage (buildImage st fs repoPath dockerfile id1 BuildResult.exitOk tmo1).stateAfter
        fs repoPath dockerfile id2 b2 tmo2).result = Except.ok ("runner-" ++ id1) ∧
    (buildImage (buildImage st fs repoPath dockerfile id1 BuildResult.exitOk tmo1).stateAfter
        fs repoPath dockerfile id2 b2 tmo2).buildInvoked = false := by
  unfold buildImage
  simp [hfs, hmiss, mapGet_mapSet_self]

theorem C4_witness :
    ((fun _ => true : String → Bool) (joinPath "repo" "Dockerfile") = true) ∧
    (mapGet (DockerState.mk []).buildCache ("repo" ++ "-" ++ "Dockerfile") = none) ∧
    ((buildImage ⟨[]⟩ (fun _ => true) "repo" "Dockerfile" "i1" BuildResult.exitOk 1000).result
        = Except.ok ("runner-" ++ "i1") ∧
     (buildImage ⟨[]⟩ (fun _ => true) "repo" "Dockerfile" "i1" BuildResult.exitOk 1000).buildInvoked
        = true ∧
     (buildImage (buildImage ⟨[]⟩ (fun _ => true) "repo" "Dockerfile" "i1"
          BuildResult.exitOk 1000).stateAfter
        (fun _ => true) "repo" "Dockerfile" "i2" (BuildResult.exitFail "boom" "") 1000).result
        = Except.ok ("runner-" ++ "i1") ∧
     (buildImage (buildImage ⟨[]⟩ (fun _ => true) "repo" "Dockerfile" "i1"
          BuildResult.exitOk 1000).stateAfter
        (fun _ => true) "repo" "Dockerfile" "i2" (BuildResult.exitFail "boom" "") 1000).buildInvoked
        = false) :=
  ⟨rfl, rfl,
   C4_buildImage_cache_idempotent ⟨[]⟩ (fun _ => true) "repo" "Dockerfile" "i1" "i2"
     (BuildResult.exitFail "boom" "") 1000 1000 rfl rfl⟩

/-! ## Claim C10: Dockerfile existence is checked before the cache -/

/-- C10 (confirmed). `buildImage` performs the `fs.access` Dockerfile check
before consulting the build cache, so when the Dockerfile is absent the call
fails with the Dockerfile-not-found error, leaves the state untouched and
spawns no build — for every cache state, including one already holding an
image for that exact key. -/
theorem C10_buildImage_dockerfile_before_cache
    (st : DockerState) (fs : String → Bool) (repoPath dockerfile instanceId : String)
    (b : BuildResult) (tmo : Nat)
    (habsent : fs (joinPath repoPath dockerfile) = false) :
    buildImage st fs repoPath dockerfile instanceId b tmo =
      { result := Except.error ("Dockerfile not found at: " ++ dockerfile)
        stateAfter := st
        buildInvoked := false } := by
  unfold buildImage
  simp [habsent]

theorem C10_witness :
    ((fun _ => false : String → Bool) (joinPath "repo" "Dockerfile") = false) ∧
    buildImage ⟨[("repo-Dockerfile", "runner-old")]⟩ (fun _ => false) "repo" "Dockerfile"
        "i9" BuildResult.exitOk 1000 =
      { result := Except.error ("Dockerfile not found at: " ++ "Dockerfile")
        stateAfter := ⟨[("repo-Dockerfile", "runner-old")]⟩
        buildInvoked := false } :=
  ⟨rfl,
   C10_buildImage_dockerfile_before_cache ⟨[("repo-Dockerfile", "runner-old")]⟩
     (fun _ => false) "repo" "Dockerfile" "i9" BuildResult.exitOk 1000 rfl⟩

/-! ## Claim C5: port pre-check before container creation -/

/-- C5 (confirmed). If any requested port is occupied on the host,
`runContainer` fails with the ports-already-in-use error computed by the
pre-check and the container-creating `docker run` command is never spawned,
for every image, instance id, hypothetical run outcome and timeout. -/
theorem C5_runContainer_port_precheck
    (portFree : Nat → Bool) (ports : List Nat) (img iid : String)
    (run : RunResult) (tmo : Nat)
    (h : ∃ p ∈ ports, portFree p = false) :
    runContainer portFree ports img iid run tmo =
      { result := Except.error ("Ports already in use: " ++
          String.intercalate ", "
            (((checkPortsAvailable portFree ports).filter fun r => !r.2).map
              fun r => toString r.1))
        dockerRunInvoked := false } := by
  obtain ⟨p, hp, hfree⟩ := h
  have hmem : (p, portFree p) ∈ checkPortsAvailable portFree ports :=
    List.mem_map_of_mem (fun q => (q, portFree q)) hp
  have hmem2 : (p, portFree p) ∈ (checkPortsAvailable portFree ports).filter fun r => !r.2 := by
    rw [List.mem_filter]
    exact ⟨hmem, by simp [hfree]⟩
  have hlen : ((checkPortsAvailable portFree ports).filter fun r => !r.2).length ≠ 0 := by
    intro h0
    rw [List.length_eq_zero] at h0
    rw [h0] at hmem2
    exact absurd hmem2 (List.not_mem_nil _)
  unfold runContainer checkPortAvailability
  simp [hlen]

theorem C5_witness :
    (∃ p ∈ [3000], (fun q => decide (q ≠ 3000)) p = false) ∧
    runContainer (fun q => decide (q ≠ 3000)) [3000] "img" "i1"
        (RunResult.closed 0 "cid" "") 1000 =
      { result := Except.error ("Ports already in use: " ++
          String.intercalate ", "
            (((checkPortsAvailable (fun q => decide (q ≠ 3000)) [3000]).filter
                fun r => !r.2).map fun r => toString r.1))
        dockerRunInvoked := false } :=
  ⟨⟨3000, by decide⟩,
   C5_runContainer_port_precheck (fun q => decide (q ≠ 3000)) [3000] "img" "i1"
     (RunResult.closed 0 "cid" "") 1000 ⟨3000, by decide⟩⟩

/-! ## Claim C6: bounded histories -/

/-- A `ContainerHealth` record already holding exactly the configured
maximum (100) of health checks. -/
def healthAtCap : ContainerHealth :=
  { containerId := "c1"
    status := .healthy
    lastCheck := 0
    checks := List.replicate 100
      { timestamp := 0, success := true, responseTime := some 1, error := none }
    uptime := 0
    restartCount := 0 }

/-- C6 (code_bug). The claim's bound holds for the metrics history, the
global error history, and the health-check history on the normal probe
path — but `performHealthCheck`'s catch path (probe rejection) appends
without trimming, so one rejected probe pushes the health-check list to
101 entries, past the configured maximum of 100. -/
theorem C6_health_history_exceeds_cap :
    defaultMonitoringConfig.maxHealthCheckHistory = 100 ∧
    healthAtCap.checks.length = 100 ∧
    (performHealthCheck defaultMonitoringConfig 0 healthAtCap
        (Except.error "probe rejected") 1 0).checks.length = 101 := by
  refine ⟨rfl, by simp [healthAtCap], ?_⟩
  simp [performHealthCheck, healthAtCap]

/-! ## Claim C7: classifier retryability rules -/

/-- C7 (confirmed). For every raw error message and context on which the
classifier terminates: a port-conflict classification
(`PORT_ALREADY_IN_USE`) or missing-build-file classification
(`DOCKERFILE_NOT_FOUND`) always carries `retryable = false`; a
daemon-unreachable (`DOCKER_DAEMON_NOT_RUNNING`) or operation-timeout
(`DOCKER_OPERATION_TIMEOUT`) classification always carries
`retryable = true`; and an input matching no error domain falls back to the
generic classification with medium severity, `recoverable = true` and
`retryable = true`. -/
theorem C7_classifier_retryability
    (msg : String) (ctx : ErrorContext) (e : RunnerError)
    (h : handleError msg ctx = some e) :
    ((e.code = "PORT_ALREADY_IN_USE" ∨ e.code = "DOCKERFILE_NOT_FOUND") →
        e.retryable = false) ∧
    ((e.code = "DOCKER_DAEMON_NOT_RUNNING" ∨ e.code = "DOCKER_OPERATION_TIMEOUT") →
        e.retryable = true) ∧
    (isDockerError msg ctx = false → isGitError msg ctx = false →
        isConfigError msg ctx = false →
      e.code = "UNKNOWN_ERROR" ∧ e.severity = Severity.medium ∧
        e.recoverable = true ∧ e.retryable = true) := by
  unfold handleError categorizeError createDockerError createGitError createConfigError at h
  repeat' split at h
  all_goals try exact Option.noConfusion h
  all_goals
    (injection h with h'
     subst h'
     refine ⟨fun hc => ?_, fun hc => ?_, fun h1 h2 h3 => ?_⟩ <;> simp_all)

/-! ## RunnerServiceImpl: stop, status probe, health tick -/

/-- Outcome of `dockerService.stopContainer` during `stopComponent`. -/
inductive StopDockerOutcome
  | ok
  | failed (rawMessage : String)
deriving Repr, DecidableEq

def stopErrorContext (instanceId : String) (containerId : Option String)
    (componentRef : String) (now : Nat) : ErrorContext :=
  { operation := "stopComponent"
    instanceId := some instanceId
    containerId := containerId
    componentRef := some componentRef
    timestamp := now }

/-- `RunnerServiceImpl.stopComponent` (lines 241-288).  There is no guard on
the instance's current status: any found instance is driven through
`stopping` to `stopped` (or to `error` when the runtime stop fails, in which
case the slot is not released).  Returns `none` only when the error
classifier diverges on the stop failure's message. -/
def stopComponent (s : OrchState) (instanceId : String) (dockerStop : StopDockerOutcome)
    (now : Nat) : Option (OrchState × Except String Unit) :=
  match mapGet s.instances instanceId with
  | none => some (s, .error ("Instance " ++ instanceId ++ " not found"))
  | some inst =>
    match inst.containerId, dockerStop with
    | some _, .failed raw =>
      match handleError raw
          (stopErrorContext instanceId inst.containerId inst.componentRef now) with
      | none => none
      | some re =>
        let inst2 := { inst with status := InstanceStatus.error, error := some re.userMessage }
        some ({ s with instances := mapSet s.instances instanceId inst2 },
              .error re.userMessage)
    | _, _ =>
      let inst2 := { inst with status := InstanceStatus.stopped, stoppedAt := some now }
      some ({ instances := mapSet s.instances instanceId inst2
              currentInstance := if s.currentInstance == some instanceId then none
                                 else s.currentInstance }, .ok ())

/-- `RunnerServiceImpl.getStatus` (lines 290-309).  `alive` is the result of
`dockerService.isContainerRunning`, consulted only when the record claims
`running` and holds a container id. -/
def getStatus (s : OrchState) (instanceId : String) (alive : Bool) (now : Nat) :
    Except String (OrchState × RunnerInstance) :=
  match mapGet s.instances instanceId with
  | none => .error ("Instance " ++ instanceId ++ " not found")
  | some inst =>
    if inst.containerId.isSome && inst.status == InstanceStatus.running then
      if !alive then
        let inst2 := { inst with status := InstanceStatus.stopped, stoppedAt := some now }
        .ok ({ instances := mapSet s.instances instanceId inst2
               currentInstance := if s.currentInstance == some instanceId then none
                                  else s.currentInstance }, inst2)
      else .ok (s, inst)
    else .ok (s, inst)

/-- One tick of the `startComponent` health-check interval (lines 536-555).
The source closure captures the instance object; since the `instances` map
stores that same object, the lookup by id is equivalent.  A tick that finds
the instance no longer `running` (or without a container) just cancels the
timer; a dead container transitions the instance to `stopped` and frees the
slot when it holds it. -/
def healthCheckTick (s : OrchState) (instanceId : String) (alive : Bool) (now : Nat) :
    OrchState :=
  match mapGet s.instances instanceId with
  | none => s
  | some inst =>
    if inst.status != InstanceStatus.running || inst.containerId.isNone then s
    else if !alive then
      { instances := mapSet s.instances instanceId
          { inst with status := InstanceStatus.stopped, stoppedAt := some now }
        currentInstance := if s.currentInstance == some instanceId then none
                           else s.currentInstance }
    else s

/-! ## Claim C9: self-healing status probe -/

/-- C9 (confirmed). For an instance whose record claims `running` and holds
a container id, `getStatus` re-probes the runtime: a dead container makes it
set the status to `stopped` with `stoppedAt` and clear `currentInstance`
exactly when the slot names this instance, and return the updated record; a
live container (or a record not claiming `running`/without a container)
leaves everything unchanged; an unknown id fails with the not-found
error. -/
theorem C9_getStatus_self_healing (s : OrchState) (id : String) (now : Nat) :
    (∀ inst, mapGet s.instances id = some inst →
      (inst.status = InstanceStatus.running → inst.containerId.isSome = true →
        getStatus s id false now =
          .ok ({ instances := mapSet s.instances id
                   { inst with status := InstanceStatus.stopped, stoppedAt := some now }
                 currentInstance := if s.currentInstance == some id then none
                                    else s.currentInstance },
                { inst with status := InstanceStatus.stopped, stoppedAt := some now }) ∧
        getStatus s id true now = .ok (s, inst)) ∧
      (¬(inst.status = InstanceStatus.running ∧ inst.containerId.isSome = true) →
        ∀ alive, getStatus s id alive now = .ok (s, inst))) ∧
    (mapGet s.instances id = none →
      ∀ alive, getStatus s id alive now =
        .error ("Instance " ++ id ++ " not found")) := by
  constructor
  · intro inst hget
    constructor
    · intro hrun hcid
      constructor <;> simp [getStatus, hget, hrun, hcid]
    · intro hnot alive
      rcases Decidable.not_and_iff_or_not.mp hnot with hns | hnc
      · have hb : (inst.status == InstanceStatus.running) = false := by
          simpa using hns
        simp [getStatus, hget, hb]
      · have hb : inst.containerId.isSome = false := by
          simpa using hnc
        simp [getStatus, hget, hb]
  · intro hnone alive
    simp [getStatus, hnone]

def runInst : RunnerInstance :=
  { id := "R", componentRef := "c", status := .running, containerId := some "cid",
    ports := [3000], startedAt := 0, stoppedAt := none, error := none,
    deploymentProgress := none }

def runOrch : OrchState :=
  { instances := [("R", runInst)], currentInstance := some "R" }

theorem C9_witness :
    mapGet runOrch.instances "R" = some runInst ∧
    getStatus runOrch "R" false 9 =
      .ok ({ instances := mapSet runOrch.instances "R"
               { runInst with status := InstanceStatus.stopped, stoppedAt := some 9 }
             currentInstance := if runOrch.currentInstance == some "R" then none
                                else runOrch.currentInstance },
            { runInst with status := InstanceStatus.stopped, stoppedAt := some 9 }) :=
  ⟨by decide,
   (((C9_getStatus_self_healing runOrch "R" 9).1 runInst (by decide)).1 rfl rfl).1⟩

/-! ## Claim C8: terminal states -/

/-- The literal wording of claim C8 over this model: once an instance's
status is `stopped` or `error`, no subsequent `stopComponent`, `getStatus`
probe or background health tick ever changes that instance's status. -/
def claimC8 : Prop :=
  ∀ (s : OrchState) (id : String) (inst : RunnerInstance),
    mapGet s.instances id = some inst →
    (inst.status = InstanceStatus.stopped ∨ inst.status = InstanceStatus.error) →
    (∀ dockerStop now out, stopComponent s id dockerStop now = some out →
       ∀ inst', mapGet out.1.instances id = some inst' → inst'.status = inst.status) ∧
    (∀ alive now s' instRet, getStatus s id alive now = .ok (s', instRet) →
       ∀ inst', mapGet s'.instances id = some inst' → inst'.status = inst.status) ∧
    (∀ alive now inst', mapGet (healthCheckTick s id alive now).instances id = some inst' →
       inst'.status = inst.status)

def errInst : RunnerInstance :=
  { id := "E", componentRef := "c", status := .error, containerId := none,
    ports := [], startedAt := 0, stoppedAt := none, error := some "boom",
    deploymentProgress := none }

def errOrch : OrchState :=
  { instances := [("E", errInst)], currentInstance := none }

def stoppedEInst : RunnerInstance :=
  { id := "E", componentRef := "c", status := .stopped, containerId := none,
    ports := [], startedAt := 0, stoppedAt := some 7, error := some "boom",
    deploymentProgress := none }

def stoppedEOut : OrchState × Except String Unit :=
  ({ instances := [("E", stoppedEInst)], currentInstance := none }, .ok ())

/-- C8 counterexample: `stopComponent` has no terminal-status guard, so
calling it on the errored instance `E` (no container) moves `E`'s status
from `error` to `stopped`, contradicting the claim that a terminal status
never changes again. -/
theorem C8_counterexample : ¬ claimC8 := by
  intro h
  have hchg := (h errOrch "E" errInst (by decide) (Or.inr rfl)).1
    StopDockerOutcome.ok 7 stoppedEOut (by decide) stoppedEInst (by decide)
  exact absurd hchg (by decide)

/-- C8 (corrected as forced by the counterexample). `getStatus` probes and
background health ticks never change the status of a `stopped` or errored
instance, and no operation returns such an instance to `starting` or
`running`; but `stopComponent` is not rejected on a terminal instance: it
re-runs the stop transition, leaving the instance `stopped` (or `error`
when the runtime stop fails), so redeployment still requires a new
instance. -/
theorem C8_amended_terminal_behaviour
    (s : OrchState) (id : String) (inst : RunnerInstance)
    (hget : mapGet s.instances id = some inst)
    (hterm : inst.status = InstanceStatus.stopped ∨ inst.status = InstanceStatus.error) :
    (∀ alive now, getStatus s id alive now = .ok (s, inst)) ∧
    (∀ alive now, healthCheckTick s id alive now = s) ∧
    (∀ dockerStop now out, stopComponent s id dockerStop now = some out →
      ∀ inst', mapGet out.1.instances id = some inst' →
        inst'.status = InstanceStatus.stopped ∨ inst'.status = InstanceStatus.error) := by
  refine ⟨?_, ?_, ?_⟩
  · intro alive now
    rcases hterm with hst | hst <;> simp [getStatus, hget, hst]
  · intro alive now
    rcases hterm with hst | hst <;> simp [healthCheckTick, hget, hst]
  · intro dockerStop now out hstop inst' hget'
    unfold stopComponent at hstop
    rw [hget] at hstop
    split at hstop
    · rename_i heq
      exact Option.noConfusion heq
    · rename_i instM heqM
      injection heqM with hh
      subst hh
      split at hstop
      · split at hstop
        · exact Option.noConfusion hstop
        · simp only [Option.some.injEq] at hstop
          cases hstop
          simp only [mapGet_mapSet_self, Option.some.injEq] at hget'
          cases hget'
          exact Or.inr rfl
      · simp only [Option.some.injEq] at hstop
        cases hstop
        simp only [mapGet_mapSet_self, Option.some.injEq] at hget'
        cases hget'
        exact Or.inl rfl

theorem C8_witness :
    mapGet errOrch.instances "E" = some errInst ∧
    (errInst.status = InstanceStatus.stopped ∨ errInst.status = InstanceStatus.error) ∧
    getStatus errOrch "E" true 3 = .ok (errOrch, errInst) ∧
    healthCheckTick errOrch "E" false 3 = errOrch :=
  ⟨by decide, Or.inr rfl,
   (C8_amended_terminal_behaviour errOrch "E" errInst (by decide) (Or.inr rfl)).1 true 3,
   (C8_amended_terminal_behaviour errOrch "E" errInst (by decide) (Or.inr rfl)).2.1 false 3⟩

/-! ## Claim C1: single-slot invariant -/

/-- The literal wording of claim C1 over this model: every sequence of
`startComponent` entries keeps at most one instance in
{starting, running}, and a `startComponent` entered while any instance is
starting or running is rejected without touching the instances map. -/
def claimC1 : Prop :=
  (∀ ops : List (String × String × Nat), activeCount (startSeq emptyOrch ops) ≤ 1) ∧
  (∀ (s : OrchState) (id cref : String) (now : Nat),
    1 ≤ activeCount s →
    (startComponentPrologue s id cref now).2.isSome = true ∧
    (startComponentPrologue s id cref now).1.instances = s.instances)

/-- C1 counterexample: the busy check only rejects when the slot instance's
status is `running`, so a second `startComponent` entered while the first
instance is still `starting` is admitted and creates a second active
instance — two instances in {starting, running} after two back-to-back
calls. -/
theorem C1_counterexample : ¬ claimC1 := by
  intro hcl
  have h2 := hcl.1 [("A", "c1", 0), ("B", "c2", 1)]
  revert h2
  decide

/-- C1 (corrected as forced by the counterexample). A `startComponent`
entered while the slot-holding instance has status `running` fails with the
busy message and touches nothing; the busy condition holds exactly when
`currentInstance` names a `running` instance — so a call entered while an
instance is merely `starting` is admitted (it creates a second active
record and overwrites the slot). -/
theorem C1_amended_slot_check (s : OrchState) (id cref : String) (now : Nat) :
    (startComponentBusy s = true →
      startComponentPrologue s id cref now =
        (s, some "Another component is already running. Stop it first.")) ∧
    (startComponentBusy s = false →
      (startComponentPrologue s id cref now).2 = none ∧
      mapGet (startComponentPrologue s id cref now).1.instances id = some
        { id := id, componentRef := cref, status := InstanceStatus.starting,
          containerId := none, ports := [], startedAt := now, stoppedAt := none,
          error := none,
          deploymentProgress := some (createInitialDeploymentProgress now) } ∧
      (startComponentPrologue s id cref now).1.currentInstance = some id) ∧
    (startComponentBusy s = true ↔
      ∃ cid inst, s.currentInstance = some cid ∧ mapGet s.instances cid = some inst ∧
        inst.status = InstanceStatus.running) := by
  refine ⟨fun hb => ?_, fun hb => ?_, ?_⟩
  · simp [startComponentPrologue, hb]
  · simp [startComponentPrologue, hb, mapGet_mapSet_self]
  · cases hcur : s.currentInstance with
    | none => simp [startComponentBusy, hcur]
    | some cid =>
      cases hin : mapGet s.instances cid with
      | none => simp [startComponentBusy, hcur, hin]
      | some inst => simp [startComponentBusy, hcur, hin]

def busyOrch : OrchState :=
  { instances := [("A", runInst)], currentInstance := some "A" }

theorem C1_witness :
    startComponentBusy busyOrch = true ∧
    startComponentPrologue busyOrch "B" "c2" 5 =
      (busyOrch, some "Another component is already running. Stop it first.") :=
  ⟨by decide, (C1_amended_slot_check busyOrch "B" "c2" 5).1 (by decide)⟩

def ctx0 : ErrorContext :=
  { operation := "test-operation", instanceId := some "i", containerId := none,
    componentRef := none, timestamp := 0 }

def daemonRe : RunnerError :=
  { code := "DOCKER_DAEMON_NOT_RUNNING"
    message := "Cannot connect to the Docker daemon"
    userMessage := "Docker daemon is not running. Please start Docker and try again."
    context := ctx0
    severity := .high
    recoverable := true
    retryable := true }

theorem C7_witness :
    handleError "Cannot connect to the Docker daemon" ctx0 = some daemonRe ∧
    daemonRe.retryable = true :=
  ⟨by decide,
   (C7_classifier_retryability "Cannot connect to the Docker daemon" ctx0 daemonRe
      (by decide)).2.1 (Or.inl rfl)⟩

/-! ## Claim C2: pipeline step ordering -/

/-- Claim C2's per-state check: no step is in progress while its
predecessor is not yet completed. -/
def noEarlyInProgress (p : DeploymentProgress) : Bool :=
  (p.steps.zip p.steps.tail).all fun q =>
    q.2.status != StepStatus.in_progress || q.1.status == StepStatus.completed

/-- The literal wording of claim C2 over the success trace: at every
observable instant of a deployment, no step has entered in-progress before
its predecessor completed. -/
def claimC2 : Prop := ∀ p ∈ successStates, noEarlyInProgress p = true

/-- C2 counterexample: `cloneRepository` marks `extracting_files`
in-progress (line 449) while `downloading_repository` is still in-progress
(it completes only at line 177, after `cloneRepository` returns), so the
state after the second update violates the claimed ordering. -/
theorem C2_counterexample : ¬ claimC2 := by
  intro h
  have h2 := h ((createInitialDeploymentProgress 0
      |> (applyProgressEvent · ("downloading_repository", StepStatus.in_progress, 1)))
      |> (applyProgressEvent · ("extracting_files", StepStatus.in_progress, 2)))
    (by decide)
  revert h2
  decide

/-- Per-state check: completed steps always form a prefix of the pipeline
(a step is completed only if its predecessor is). -/
def completedPrefixClosed (p : DeploymentProgress) : Bool :=
  (p.steps.zip p.steps.tail).all fun q =>
    q.2.status != StepStatus.completed || q.1.status == StepStatus.completed

/-- Per-state check: every step other than `extracting_files` enters
in-progress only after its predecessor completed. -/
def noEarlyInProgressExceptExtract (p : DeploymentProgress) : Bool :=
  (p.steps.zip p.steps.tail).all fun q =>
    q.2.stepType == "extracting_files" ||
    (q.2.status != StepStatus.in_progress || q.1.status == StepStatus.completed)

/-- Per-state check: when `extracting_files` is in progress its
predecessor `downloading_repository` has at least started (it is
in-progress or completed, never pending or failed). -/
def extractPredecessorActive (p : DeploymentProgress) : Bool :=
  (p.steps.zip p.steps.tail).all fun q =>
    !(q.2.stepType == "extracting_files" && q.2.status == StepStatus.in_progress) ||
    (q.1.status == StepStatus.in_progress || q.1.status == StepStatus.completed)

/-- Across one trace step, completion is never revoked. -/
def completedPersists (a b : DeploymentProgress) : Bool :=
  (a.steps.zip b.steps).all fun q =>
    q.1.status != StepStatus.completed || q.2.status == StepStatus.completed

/-- Final-state check of a successful deployment. -/
def allStepsCompleted (p : DeploymentProgress) : Bool :=
  p.steps.all (fun s => s.status == StepStatus.completed) &&
  p.overallProgress == 100 && p.isComplete && !p.hasError

/-- C2 (corrected as forced by the counterexample). Over the success
trace: completed steps always form a left-to-right prefix and completion is
never revoked (so steps complete in the fixed order acquire-source →
extract → build-image → start-container → begin-monitoring); every step
except `extracting_files` enters in-progress only after its predecessor
completed; `extracting_files` enters in-progress while
`downloading_repository` is still in-progress (extraction runs inside the
download stage); and the final state has all five steps completed with
overall progress 100. -/
theorem C2_amended_ordering :
    (∀ p ∈ successStates,
      completedPrefixClosed p = true ∧
      noEarlyInProgressExceptExtract p = true ∧
      extractPredecessorActive p = true) ∧
    ((successStates.zip successStates.tail).all fun q =>
      completedPersists q.1 q.2) = true ∧
    allStepsCompleted (successStates.getLastD (createInitialDeploymentProgress 0)) = true := by
  decide

/-! ## Claim C3: failure halts the pipeline -/

def applyProgressEvents (p : DeploymentProgress) (es : List ProgressEvent) :
    DeploymentProgress :=
  es.foldl applyProgressEvent p

/-- How many progress updates have run when stage `k` raises: stage 0
(download) fails after its in-progress mark; stage 1 (extract) after its
in-progress mark inside `cloneRepository`; stages 2-4 after the earlier
stages completed and their own in-progress mark. -/
def failPrefixLen (k : Fin 5) : Nat :=
  match k.val with
  | 0 => 1
  | 1 => 2
  | 2 => 5
  | 3 => 7
  | _ => 9

def failEvents (k : Fin 5) : List ProgressEvent :=
  successEvents.take (failPrefixLen k)

/-- What the catch block of `startComponent` leaves behind: the instance
fields it writes and the message of the re-raised exception
(`throw new Error(runnerError.userMessage)`). -/
structure StartFailOutcome where
  status : InstanceStatus
  error : Option String
  deploymentProgress : DeploymentProgress
  thrownMessage : String
deriving Repr, DecidableEq

/-- The `ErrorContext` built in the catch block (line 209; the `metadata`
ports bag is not consulted by classification). -/
def startErrorContext (instanceId componentRef : String) (now : Nat) : ErrorContext :=
  { operation := "startComponent"
    instanceId := some instanceId
    containerId := none
    componentRef := some componentRef
    timestamp := now }

/-- The catch block of `startComponent` (lines 208-238) applied after the
stage-`k` prefix of progress updates: store the classified failure's
`userMessage` on the instance, set status `error`, mark the current step
failed with that message, and re-raise the same message. -/
def startFailOutcome (k : Fin 5) (re : RunnerError) : StartFailOutcome :=
  let p0 := applyProgressEvents (createInitialDeploymentProgress 0) (failEvents k)
  let p1 := updateDeploymentProgress p0 p0.currentStep StepStatus.failed
      { error := some re.userMessage, progress := none, description := none } 100
  { status := InstanceStatus.error
    error := some re.userMessage
    deploymentProgress := p1
    thrownMessage := re.userMessage }

/-- `startComponent` when stage `k` raises with raw message `raw`:
classify, then run the catch block.  `none` only when the classifier
diverges on `raw`. -/
def startComponentFailure (k : Fin 5) (raw instanceId componentRef : String) (now : Nat) :
    Option StartFailOutcome :=
  (handleError raw (startErrorContext instanceId componentRef now)).map (startFailOutcome k)

/-- C3 (confirmed). If pipeline stage `k` raises during `startComponent`
and the classifier terminates on the raw message, then every step after `k`
remains `pending`, the instance's status becomes `error`, and the
classified failure's `userMessage` equals both the instance's `error` field
and the message of the re-raised exception. -/
theorem C3_failure_halts_pipeline
    (k : Fin 5) (raw instanceId componentRef : String) (now : Nat) (re : RunnerError)
    (h : handleError raw (startErrorContext instanceId componentRef now) = some re) :
    startComponentFailure k raw instanceId componentRef now = some (startFailOutcome k re) ∧
    (startFailOutcome k re).status = InstanceStatus.error ∧
    (startFailOutcome k re).error = some re.userMessage ∧
    (startFailOutcome k re).thrownMessage = re.userMessage ∧
    (∀ j : Fin 5, k.val < j.val →
      ((startFailOutcome k re).deploymentProgress.steps.map DeploymentStep.status).get? j.val
        = some StepStatus.pending) := by
  refine ⟨by simp [startComponentFailure, h], rfl, rfl, rfl, ?_⟩
  fin_cases k <;>
    (intro j hj
     fin_cases j <;> first
       | rfl
       | exact absurd hj (by decide))

def buildFailedRe : RunnerError :=
  { code := "DOCKER_BUILD_FAILED"
    message := "Docker build failed: boom"
    userMessage := "Docker build failed. Please check your Dockerfile and build configuration."
    context := startErrorContext "i" "c" 0
    severity := .high
    recoverable := false
    retryable := true }

theorem C3_witness :
    handleError "Docker build failed: boom" (startErrorContext "i" "c" 0) =
      some buildFailedRe ∧
    startComponentFailure (2 : Fin 5) "Docker build failed: boom" "i" "c" 0 =
      some (startFailOutcome (2 : Fin 5) buildFailedRe) ∧
    (startFailOutcome (2 : Fin 5) buildFailedRe).status = InstanceStatus.error ∧
    ((startFailOutcome (2 : Fin 5) buildFailedRe).deploymentProgress.steps.map
        DeploymentStep.status).get? 4 = some StepStatus.pending :=
  ⟨by decide,
   (C3_failure_halts_pipeline (2 : Fin 5) "Docker build failed: boom" "i" "c" 0
      buildFailedRe (by decide)).1,
   (C3_failure_halts_pipeline (2 : Fin 5) "Docker build failed: boom" "i" "c" 0
      buildFailedRe (by decide)).2.1,
   (C3_failure_halts_pipeline (2 : Fin 5) "Docker build failed: boom" "i" "c" 0
      buildFailedRe (by decide)).2.2.2.2 (4 : Fin 5) (by decide)⟩
